import Mathlib

/-!
Verification of the Offer Discovery Engine of the aim-aie7-demo-day repository.

The Python sources are shallowly embedded: floats become exact rationals (ℚ),
machine integers become `Nat`/`Int` with explicit `% 2^w` where overflow
matters, optional values become `Option`, and fallible code returns `Except`.
Each definition mirrors one Python function and is named after it.
-/

namespace AcpDemo

/-- Python truthiness of an optional float: `None` and `0.0` are falsy,
every other float is truthy (`if not lat` in `calculate_geo_score`). -/
def pyTruthy : Option ℚ → Bool
  | none => false
  | some x => x != 0

/-- Whether `n` is an initial segment of `h` (list-of-chars level helper for
the Python substring operator). -/
def leadsList : List Char → List Char → Bool
  | [], _ => true
  | _ :: _, [] => false
  | a :: as, b :: bs => a == b && leadsList as bs

/-- Whether `needle` occurs contiguously inside `haystack` (list level). -/
def hasSubList (haystack needle : List Char) : Bool :=
  match haystack with
  | [] => needle.isEmpty
  | _ :: t => leadsList needle haystack || hasSubList t needle

/-- Python's string containment operator `needle in haystack`. -/
def pyInStr (needle haystack : String) : Bool :=
  hasSubList haystack.data needle.data

/-- Python's `str.split()` with no argument: split on whitespace runs,
discarding empty pieces. -/
def pySplit (s : String) : List String :=
  (s.split Char.isWhitespace).filter (fun w => w ≠ "")

/-- Payload fields of an indexed offer that the ranking pipeline reads
(`offer.get(...)` accesses in `search_service.py`).  A `location` whose
`lat`/`lng` key is missing is `none`.  `expires_at` is `none` when the field
is absent/falsy, `some none` when the stored timestamp fails to parse, and
`some (some ts)` when it parses to the POSIX timestamp `ts` (in seconds). -/
structure OfferPayload where
  search_text : String := ""
  labels : List String := []
  title : String := ""
  description : String := ""
  location_lat : Option ℚ := none
  location_lng : Option ℚ := none
  expires_at : Option (Option Int) := none
deriving DecidableEq, Repr

/-- Request parameters (`SearchParams` pydantic model: query "", lat/lng
`None`, `radius_m` 50000, labels [], limit 20, offset 0 by default). -/
structure SearchParams where
  query : String := ""
  lat : Option ℚ := none
  lng : Option ℚ := none
  radius_m : ℚ := 50000
  labels : List String := []
  limit : Nat := 20
  offset : Nat := 0
deriving DecidableEq, Repr

/-- The `_scores` entry attached to each candidate by `apply_hybrid_ranking`. -/
structure Scores where
  semantic : ℚ
  geo : ℚ
  time : ℚ
  combined : ℚ
deriving DecidableEq, Repr

/-- Return shape of `SearchService.search_offers` (its wall-clock
`search_time` field is not modelled). -/
structure SearchResult where
  offers : List OfferPayload
  total : Nat
  limit : Nat
  offset : Nat
deriving DecidableEq, Repr

/-- `SearchService.calculate_semantic_score` (search_service.py lines
119-157): term-overlap heuristic, clipped to 1.0; empty query gives 0.5.
Note the code tests the raw `query` (not `query_lower`) against the
lower-cased text, title and description. -/
def calculate_semantic_score (offer : OfferPayload) (query : String) : ℚ :=
  if query = "" then 0.5
  else
    let query_lower := query.toLower
    let offer_text := offer.search_text.toLower
    let s1 : ℚ := if pyInStr query offer_text then 0.4 else 0
    let query_words := pySplit query_lower
    let offer_words := pySplit offer_text
    let word_matches : ℚ := ((query_words.filter (fun w => offer_words.contains w)).length : ℚ)
    let s2 : ℚ := if query_words ≠ [] then (word_matches / (query_words.length : ℚ)) * 0.3 else 0
    let offer_labels := offer.labels.map String.toLower
    let label_matches : ℚ := ((query_words.filter (fun w => offer_labels.contains w)).length : ℚ)
    let s3 : ℚ := if query_words ≠ [] then (label_matches / (query_words.length : ℚ)) * 0.2 else 0
    let title := offer.title.toLower
    let description := offer.description.toLower
    let s4 : ℚ := if pyInStr query title then 0.1 else 0
    let s5 : ℚ := if pyInStr query description then 0.05 else 0
    min (s1 + s2 + s3 + s4 + s5) 1.0

/-- Distance-dependent part of `calculate_geo_score` (search_service.py lines
180-189): the score computed once both locations are known, from the distance
in meters, followed by the final `max(0.0, min(score, 1.0))` clamp. -/
def geo_distance_score (distance_m radius_m : ℚ) : ℚ :=
  let score : ℚ :=
    if distance_m ≤ radius_m then 1.0 - (distance_m / radius_m) * 0.2
    else max 0.0 (0.8 - (distance_m - radius_m) / radius_m * 0.8)
  max 0.0 (min score 1.0)

/-- `SearchService.calculate_geo_score` (search_service.py lines 159-189).
The haversine great-circle distance (a float computation over transcendental
functions) is abstracted as the parameter `hav`, returning kilometers; the
code multiplies it by 1000 to get meters.  `pyTruthy` captures the code's
`if not lat or not lng` tests, under which both `None` and `0.0` count as
missing. -/
def calculate_geo_score (hav : ℚ → ℚ → ℚ → ℚ → ℚ) (offer : OfferPayload)
    (lat lng : Option ℚ) (radius_m : ℚ) : ℚ :=
  if !(pyTruthy lat) || !(pyTruthy lng) then 0.5
  else
    let offer_lat := offer.location_lat
    let offer_lng := offer.location_lng
    if !(pyTruthy offer_lat) || !(pyTruthy offer_lng) then 0.3
    else
      let distance_km := hav (lat.getD 0) (lng.getD 0) (offer_lat.getD 0) (offer_lng.getD 0)
      let distance_m := distance_km * 1000
      geo_distance_score distance_m radius_m

/-- `SearchService.calculate_time_score` (search_service.py lines 191-223).
`now` is the current POSIX timestamp in seconds.  `timedelta.days` is floor
division of the signed difference by 86400 seconds (`Int.fdiv`).  The whole
body is wrapped in `try/except` returning 0.5, which the parse-failure case
`some none` represents; the embedding is total, as the Python never raises. -/
def calculate_time_score (offer : OfferPayload) (now : Int) : ℚ :=
  match offer.expires_at with
  | none => 0.5
  | some none => 0.5
  | some (some expiration) =>
      let days_until_expiry : Int := Int.fdiv (expiration - now) 86400
      if days_until_expiry < 0 then 0.0
      else if days_until_expiry ≤ 7 then 1.0
      else if days_until_expiry ≤ 30 then 0.8
      else if days_until_expiry ≤ 90 then 0.6
      else 0.4

/-- Per-candidate scoring step of `apply_hybrid_ranking` (search_service.py
lines 84-105): the three component scores and their weighted combination. -/
def compute_scores (hav : ℚ → ℚ → ℚ → ℚ → ℚ) (now : Int)
    (offer : OfferPayload) (p : SearchParams) : Scores :=
  let semantic_score := calculate_semantic_score offer p.query
  let geo_score := calculate_geo_score hav offer p.lat p.lng p.radius_m
  let time_score := calculate_time_score offer now
  { semantic := semantic_score
    geo := geo_score
    time := time_score
    combined := semantic_score * 0.5 + geo_score * 0.3 + time_score * 0.2 }

/-- Stable descending insertion of `x` into an already-sorted list: `x` is
placed before the first element whose key does not exceed `x`'s. -/
def insertDesc (key : OfferPayload × Scores → ℚ) (x : OfferPayload × Scores) :
    List (OfferPayload × Scores) → List (OfferPayload × Scores)
  | [] => [x]
  | y :: ys => if key y ≤ key x then x :: y :: ys else y :: insertDesc key x ys

/-- Stable sort, descending by `key` — the extensional behavior of Python's
`list.sort(key=..., reverse=True)`, which is guaranteed stable. -/
def sortDescBy (key : OfferPayload × Scores → ℚ) :
    List (OfferPayload × Scores) → List (OfferPayload × Scores)
  | [] => []
  | x :: xs => insertDesc key x (sortDescBy key xs)

/-- `SearchService.apply_hybrid_ranking` (search_service.py lines 74-117):
score every candidate, sort by combined score descending (stable), strip the
score metadata. -/
def apply_hybrid_ranking (hav : ℚ → ℚ → ℚ → ℚ → ℚ) (now : Int)
    (offers : List OfferPayload) (p : SearchParams) : List OfferPayload :=
  let scored_offers := offers.map (fun o => (o, compute_scores hav now o p))
  (sortDescBy (fun x => x.2.combined) scored_offers).map Prod.fst

/-- `SearchService.search_offers` (search_service.py lines 17-72), with the
base retrieval from the GOR passed in as an `Except` value: `.error`
represents the store raising (caught by the `except` clause, lines 63-72,
which returns an empty result with total 0). -/
def search_offers (hav : ℚ → ℚ → ℚ → ℚ → ℚ) (now : Int) (p : SearchParams)
    (base_results : Except String (List OfferPayload)) : SearchResult :=
  match base_results with
  | .error _ => { offers := [], total := 0, limit := p.limit, offset := p.offset }
  | .ok base =>
      if base = [] then { offers := [], total := 0, limit := p.limit, offset := p.offset }
      else
        let ranked_results := apply_hybrid_ranking hav now base p
        let paginated_results := (ranked_results.drop p.offset).take p.limit
        { offers := paginated_results
          total := ranked_results.length
          limit := p.limit
          offset := p.offset }

/-- Modelled from the spec: `GORService.search_offers`
(`apps/gor-api/src/gor/services/gor_service.py` is not under `src/`; only its
caller `search_service.py` is).  Per §4.2 the Index Store retrieval applies
the exact-match label filter (ANY semantics), then `offset`, then `limit`, at
the store level — exactly what the in-source twin
`OfferRegistry.search_offers` does by forwarding `offset` and `limit` to the
Qdrant query.  `store` is the full filtered-candidate pool in store order. -/
def gor_base_retrieval (store : List OfferPayload) (labels : List String)
    (limit offset : Nat) : List OfferPayload :=
  let filtered := store.filter
    (fun o => labels.isEmpty || o.labels.any (fun l => labels.contains l))
  (filtered.drop offset).take limit

/-- Composition of `SearchService.search_offers` with its base retrieval call
(search_service.py lines 23-30): the GOR is queried with the same labels, a
limit of `2 * limit` ("Get more for ranking") and the caller's `offset`. -/
def search_pipeline (hav : ℚ → ℚ → ℚ → ℚ → ℚ) (now : Int)
    (store : List OfferPayload) (p : SearchParams) : SearchResult :=
  search_offers hav now p
    (.ok (gor_base_retrieval store p.labels (p.limit * 2) p.offset))

/-! CPython string hashing, as used by `index_offer` (registry.py lines
117-167): `point_id = hash(unique_id) & 0x7fffffff`.  CPython's `hash` on a
`str` is siphash13 (Python ≥ 3.11) of its bytes, keyed by the per-process
hash secret `(k0, k1)`: random at interpreter start unless `PYTHONHASHSEED`
fixes it.  All 64-bit arithmetic is `Nat` taken `% 2^64`. -/

/-- Two to the sixty-fourth, the modulus of CPython's 64-bit hash state. -/
def M64 : Nat := 18446744073709551616

/-- Left rotation of a 64-bit word. -/
def rotl64 (x n : Nat) : Nat := ((x <<< n) % M64) ||| (x >>> (64 - n))

/-- Per-process CPython interpreter state that the embedded functions may
read: the string-hash secret `_Py_HashSecret.siphash` (k0, k1). -/
structure PyProcess where
  hashKey0 : Nat
  hashKey1 : Nat
deriving DecidableEq, Repr

/-- One `HALF_ROUND(a,b,c,d,s,t)` of CPython's siphash (Python/pyhash.c). -/
def sipHalfRound (a b c d : Nat) (s t : Nat) : Nat × Nat × Nat × Nat :=
  let a := (a + b) % M64
  let c := (c + d) % M64
  let b := Nat.xor (rotl64 b s) a
  let d := Nat.xor (rotl64 d t) c
  let a := rotl64 a 32
  (a, b, c, d)

/-- One `SINGLE_ROUND` of siphash13: `HALF_ROUND(v0,v1,v2,v3,13,16);
HALF_ROUND(v2,v1,v0,v3,17,21)`. -/
def sipRound : Nat × Nat × Nat × Nat → Nat × Nat × Nat × Nat
  | (v0, v1, v2, v3) =>
      let (v0, v1, v2, v3) := sipHalfRound v0 v1 v2 v3 13 16
      let (v2, v1, v0, v3) := sipHalfRound v2 v1 v0 v3 17 21
      (v0, v1, v2, v3)

/-- Little-endian value of a byte list (at most 8 bytes). -/
def leWord (bs : List Nat) : Nat := bs.foldr (fun b acc => acc * 256 + b) 0

/-- Main loop of siphash13: absorb full 8-byte words, returning the final
state and the remaining tail of fewer than 8 bytes. -/
def sipLoop (v : Nat × Nat × Nat × Nat) :
    List Nat → (Nat × Nat × Nat × Nat) × List Nat
  | b0 :: b1 :: b2 :: b3 :: b4 :: b5 :: b6 :: b7 :: rest =>
      let mi := leWord [b0, b1, b2, b3, b4, b5, b6, b7]
      let (v0, v1, v2, v3) := v
      let st := sipRound (v0, v1, v2, Nat.xor v3 mi)
      sipLoop (Nat.xor st.1 mi, st.2.1, st.2.2.1, st.2.2.2) rest
  | bs => (v, bs)

/-- CPython `siphash13(k0, k1, src, src_sz)` over a byte list. -/
def siphash13 (k0 k1 : Nat) (data : List Nat) : Nat :=
  let v0 := Nat.xor k0 0x736f6d6570736575
  let v1 := Nat.xor k1 0x646f72616e646f6d
  let v2 := Nat.xor k0 0x6c7967656e657261
  let v3 := Nat.xor k1 0x7465646279746573
  let (st, tail) := sipLoop (v0, v1, v2, v3) data
  let b := Nat.lor ((data.length <<< 56) % M64) (leWord tail)
  let (v0, v1, v2, v3) := st
  let st2 := sipRound (v0, v1, v2, Nat.xor v3 b)
  let (w0, w1, w2, w3) := st2
  let st3 := sipRound (sipRound (sipRound (Nat.xor w0 b, w1, Nat.xor w2 0xff, w3)))
  Nat.xor (Nat.xor st3.1 st3.2.1) (Nat.xor st3.2.2.1 st3.2.2.2)

/-- One step of CPython's `lcg_urandom` generator (32-bit LCG). -/
def lcgNext (x : Nat) : Nat := (x * 214013 + 2531011) % 4294967296

/-- Byte stream of CPython's `lcg_urandom(seed)`, used to fill the hash
secret when `PYTHONHASHSEED` is a nonzero integer. -/
def lcgBytes : Nat → Nat → List Nat
  | _, 0 => []
  | x, n + 1 =>
      let x' := lcgNext x
      ((x' >>> 16) % 256) :: lcgBytes x' n

/-- The per-process hash secret CPython derives from `PYTHONHASHSEED`:
seed 0 disables randomization (zero key); a nonzero seed fills 16 key bytes
from the LCG, read as two little-endian 64-bit words. -/
def keyFromSeed (seed : Nat) : PyProcess :=
  if seed = 0 then ⟨0, 0⟩
  else
    let bs := lcgBytes (seed % 4294967296) 16
    ⟨leWord (bs.take 8), leWord (bs.drop 8)⟩

/-- CPython `hash(s)` for an ASCII `str`, as the unsigned 64-bit
representation of the signed `Py_hash_t`: 0 for the empty string, otherwise
siphash13 of the bytes under the process key, with the reserved value -1
(i.e. `2^64 - 1`) mapped to -2. -/
def pyStrHash (env : PyProcess) (s : String) : Nat :=
  let bytes := s.data.map Char.toNat
  if bytes = [] then 0
  else
    let h := siphash13 env.hashKey0 env.hashKey1 bytes
    if h = M64 - 1 then M64 - 2 else h

/-- Point id computed by `OfferRegistry.index_offer` (registry.py lines
130-136): `unique_id = f"{merchant_id}_{offer_id}"; point_id =
hash(unique_id) & 0x7fffffff`.  Masking with `0x7fffffff` is reduction mod
`2^31`, identical on the signed and unsigned readings of the 64-bit hash. -/
def point_id (env : PyProcess) (merchant_id offer_id : String) : Nat :=
  pyStrHash env (merchant_id ++ "_" ++ offer_id) % 2147483648

/-- `OfferRegistry.search_offers` result delivery (registry.py lines
286-340): the body's result on success, `[]` when the store raises (the
`except` clause at lines 338-340). -/
def registry_search_result (r : Except String (List OfferPayload)) :
    List OfferPayload :=
  match r with
  | .error _ => []
  | .ok l => l

/-! Embedding services.  `hashlib.md5(...).hexdigest()` is an external
stdlib primitive — a fixed pure function of its input bytes — and is passed
in as the parameter `md5hex`; likewise float `** 0.5` is passed as `sqrtf`.
Each function also receives the `PyProcess` state it could in principle
read; the bodies read none of it. -/

/-- Value of a lowercase/uppercase hex digit (total; `md5hex` output is
always valid lowercase hex). -/
def hexDigitVal (c : Char) : Nat :=
  if c.isDigit then c.toNat - 48
  else if 'a' ≤ c ∧ c ≤ 'f' then c.toNat - 87
  else if 'A' ≤ c ∧ c ≤ 'F' then c.toNat - 55
  else 0

/-- Python `int(s, 16)` on a hex string. -/
def hexVal (s : String) : Nat :=
  s.data.foldl (fun acc c => acc * 16 + hexDigitVal c) 0

namespace EmbeddingService

/-- `EmbeddingService._generate_mock_embedding` (gor-api
embedding_service.py lines 70-92): md5-seeded 1536-dimensional vector,
normalized to unit length.  Depends only on `text` and the fixed `md5hex`
and `sqrtf` primitives, never on `env`. -/
def generate_mock_embedding (md5hex : String → String) (sqrtf : ℚ → ℚ)
    (_env : PyProcess) (text : String) : List ℚ :=
  let text_hash := md5hex text
  let embedding := (List.range 1536).map (fun i =>
    let hash_seed := text_hash ++ "_" ++ toString i
    let value : ℚ := (hexVal ((md5hex hash_seed).take 8) : ℚ) / 4294967296
    (value - 0.5) * 2)
  let magnitude := sqrtf ((embedding.map (fun x => x * x)).sum)
  embedding.map (fun x => x / magnitude)

/-- `EmbeddingService.calculate_similarity` (gor-api embedding_service.py
lines 94-110): raises `ValueError` on mismatched dimensions (modelled as
`.error`), returns 0.0 when either magnitude is zero, otherwise the cosine
similarity. -/
def calculate_similarity (sqrtf : ℚ → ℚ) (embedding1 embedding2 : List ℚ) :
    Except String ℚ :=
  if embedding1.length ≠ embedding2.length then
    .error "Embeddings must have same dimension"
  else
    let dot_product := (List.zipWith (· * ·) embedding1 embedding2).sum
    let mag1 := sqrtf ((embedding1.map (fun a => a * a)).sum)
    let mag2 := sqrtf ((embedding2.map (fun b => b * b)).sum)
    if mag1 = 0 ∨ mag2 = 0 then .ok 0
    else .ok (dot_product / (mag1 * mag2))

end EmbeddingService

namespace VectorSearchService

/-- `VectorSearchService._generate_mock_embedding` (acp-sdk
vector_search.py lines 63-80): each coordinate is derived from one hex
character of the md5 digest of the text.  Depends only on `text` and the
fixed `md5hex` primitive, never on `env`. -/
def generate_mock_embedding (md5hex : String → String) (_env : PyProcess)
    (text : String) : List ℚ :=
  let text_hash := md5hex text
  (List.range 1536).map (fun i =>
    let hash_index := i % text_hash.length
    let char_val : ℚ := ((text_hash.data.getD hash_index ' ').toNat : ℚ)
    (char_val / 255) * 2 - 1)

/-- `VectorSearchService.calculate_similarity` (acp-sdk vector_search.py
lines 107-130): the whole body is inside `try/except Exception: return
0.0`, so the dimension-mismatch `raise` is caught by the function itself and
it is total, returning 0.0 on mismatch and on zero magnitude. -/
def calculate_similarity (sqrtf : ℚ → ℚ) (embedding1 embedding2 : List ℚ) : ℚ :=
  if embedding1.length ≠ embedding2.length then 0
  else
    let dot_product := (List.zipWith (· * ·) embedding1 embedding2).sum
    let mag1 := sqrtf ((embedding1.map (fun a => a * a)).sum)
    let mag2 := sqrtf ((embedding2.map (fun b => b * b)).sum)
    if mag1 = 0 ∨ mag2 = 0 then 0
    else dot_product / (mag1 * mag2)

end VectorSearchService

/-- The semantic-score formula exactly as the specification words it
(spec §4.4 step 2, first bullet), for comparison with the source-derived
`calculate_semantic_score`: 0.4 for an exact query substring in the derived
search text, 0.3 times the fraction of query words present in the text's
words, 0.2 times the fraction of query words present in the labels, 0.1 for
the query as a substring of the title, 0.05 for the description, summed and
clipped to 1.0; no query text yields the neutral 0.5. -/
def semanticScoreSpec (offer : OfferPayload) (query : String) : ℚ :=
  if query = "" then 0.5
  else
    let qwords := pySplit query.toLower
    let twords := pySplit offer.search_text.toLower
    let lwords := offer.labels.map String.toLower
    let fracText : ℚ :=
      if qwords = [] then 0
      else ((qwords.filter (fun w => twords.contains w)).length : ℚ) / (qwords.length : ℚ)
    let fracLabels : ℚ :=
      if qwords = [] then 0
      else ((qwords.filter (fun w => lwords.contains w)).length : ℚ) / (qwords.length : ℚ)
    min ((if pyInStr query offer.search_text.toLower then 0.4 else 0)
        + 0.3 * fracText
        + 0.2 * fracLabels
        + (if pyInStr query offer.title.toLower then 0.1 else 0)
        + (if pyInStr query offer.description.toLower then 0.05 else 0)) 1.0

/-- Distance oracle for concrete runs in which no offer carries a location
(the haversine code path is never reached). -/
def hav0 : ℚ → ℚ → ℚ → ℚ → ℚ := fun _ _ _ _ => 0

/-- A neutral offer: no search text, labels, location or expiry, so every
ranking dimension scores exactly 0.5 and candidates tie. -/
def nOffer (t : String) : OfferPayload := { title := t }

/-- A store holding six neutral candidate offers, in store order. -/
def store6 : List OfferPayload :=
  [nOffer "o0", nOffer "o1", nOffer "o2", nOffer "o3", nOffer "o4", nOffer "o5"]

/-- First page request: `offset=0, limit=2`. -/
def pageParams1 : SearchParams := { limit := 2, offset := 0 }

/-- Second page request: `offset=2, limit=2`. -/
def pageParams2 : SearchParams := { limit := 2, offset := 2 }

/-- A sum of squares of rationals is nonnegative. -/
lemma sumsq_nonneg (l : List ℚ) : 0 ≤ (l.map (fun a => a * a)).sum := by
  induction l with
  | nil => simp
  | cons x xs ih =>
      simp only [List.map_cons, List.sum_cons]
      have hx := mul_self_nonneg x
      linarith

/-- The semantic score is nonnegative. -/
lemma calculate_semantic_score_nonneg (o : OfferPayload) (q : String) :
    0 ≤ calculate_semantic_score o q := by
  unfold calculate_semantic_score
  split_ifs <;> positivity

/-- The semantic score never exceeds 1. -/
lemma calculate_semantic_score_le_one (o : OfferPayload) (q : String) :
    calculate_semantic_score o q ≤ 1 := by
  unfold calculate_semantic_score
  split_ifs <;> norm_num

/-- The distance-based geo score is nonnegative (final clamp). -/
lemma geo_distance_score_nonneg (d r : ℚ) : 0 ≤ geo_distance_score d r := by
  unfold geo_distance_score
  exact le_max_of_le_left (by norm_num)

/-- The distance-based geo score never exceeds 1 (final clamp). -/
lemma geo_distance_score_le_one (d r : ℚ) : geo_distance_score d r ≤ 1 := by
  unfold geo_distance_score
  refine max_le (by norm_num) (le_trans (min_le_right _ _) (by norm_num))

/-- The geo score is nonnegative in every branch. -/
lemma calculate_geo_score_nonneg (hav : ℚ → ℚ → ℚ → ℚ → ℚ) (o : OfferPayload)
    (lat lng : Option ℚ) (r : ℚ) : 0 ≤ calculate_geo_score hav o lat lng r := by
  simp only [calculate_geo_score]
  split
  · norm_num
  · split
    · norm_num
    · exact geo_distance_score_nonneg _ _

/-- The geo score never exceeds 1 in any branch. -/
lemma calculate_geo_score_le_one (hav : ℚ → ℚ → ℚ → ℚ → ℚ) (o : OfferPayload)
    (lat lng : Option ℚ) (r : ℚ) : calculate_geo_score hav o lat lng r ≤ 1 := by
  simp only [calculate_geo_score]
  split
  · norm_num
  · split
    · norm_num
    · exact geo_distance_score_le_one _ _

/-- The time score is nonnegative in every branch. -/
lemma calculate_time_score_nonneg (o : OfferPayload) (now : Int) :
    0 ≤ calculate_time_score o now := by
  unfold calculate_time_score
  rcases o.expires_at with _ | e
  · norm_num
  · rcases e with _ | ts
    · norm_num
    · simp only
      split_ifs <;> norm_num

/-- The time score never exceeds 1 in any branch. -/
lemma calculate_time_score_le_one (o : OfferPayload) (now : Int) :
    calculate_time_score o now ≤ 1 := by
  unfold calculate_time_score
  rcases o.expires_at with _ | e
  · norm_num
  · rcases e with _ | ts
    · norm_num
    · simp only
      split_ifs <;> norm_num

/-- C7: for any fixed text, the fallback (mock) embedding is deterministic —
both implementations are functions of the text and the fixed md5 (and square
root) primitives alone, reading no per-process interpreter state, so any two
evaluations, in the same process or in different processes, produce
bit-identical vectors. -/
theorem mock_embedding_deterministic :
    ∀ (md5hex : String → String) (sqrtf : ℚ → ℚ) (env1 env2 : PyProcess) (t : String),
      EmbeddingService.generate_mock_embedding md5hex sqrtf env1 t =
        EmbeddingService.generate_mock_embedding md5hex sqrtf env2 t ∧
      VectorSearchService.generate_mock_embedding md5hex env1 t =
        VectorSearchService.generate_mock_embedding md5hex env2 t :=
  fun _ _ _ _ _ => ⟨rfl, rfl⟩

/-- C9: when candidate retrieval raises, `SearchService.search_offers`
returns an empty offers list with total 0 (and its limit/offset echoed)
instead of propagating the exception, and `OfferRegistry.search_offers`
likewise degrades to an empty list. -/
theorem search_error_returns_empty (hav : ℚ → ℚ → ℚ → ℚ → ℚ) (now : Int)
    (p : SearchParams) (e : String) :
    search_offers hav now p (.error e) =
      { offers := [], total := 0, limit := p.limit, offset := p.offset } ∧
    registry_search_result (.error e) = [] :=
  ⟨rfl, rfl⟩

/-- C2: the point id of `index_offer` is CPython `hash` of
`"{merchant_id}_{offer_id}"` masked to 31 bits, and CPython's string hash is
keyed by the per-process randomized hash secret: for `("m1", "o1")` the
processes with `PYTHONHASHSEED=0` and `PYTHONHASHSEED=1` store the same
offer under two different point ids, so the id is not stable across
processes and re-ingestion from a fresh process duplicates the point. -/
theorem point_id_differs_across_processes :
    point_id (keyFromSeed 0) "m1" "o1" = 571752501 ∧
    point_id (keyFromSeed 1) "m1" "o1" = 732358888 ∧
    point_id (keyFromSeed 0) "m1" "o1" ≠ point_id (keyFromSeed 1) "m1" "o1" :=
  ⟨by decide, by decide, by decide⟩

/-- C1: for every candidate offer and query (with a positive radius, the
domain on which the Python scoring runs without a `ZeroDivisionError`), the
combined score equals `0.5·semantic + 0.3·geo + 0.2·time`, and all four
scores lie in `[0, 1]`. -/
theorem combined_score_formula_and_bounds (hav : ℚ → ℚ → ℚ → ℚ → ℚ) (now : Int)
    (offer : OfferPayload) (p : SearchParams) (hr : 0 < p.radius_m) :
    (compute_scores hav now offer p).combined =
        (compute_scores hav now offer p).semantic * 0.5
      + (compute_scores hav now offer p).geo * 0.3
      + (compute_scores hav now offer p).time * 0.2
  ∧ 0 ≤ (compute_scores hav now offer p).semantic
  ∧ (compute_scores hav now offer p).semantic ≤ 1
  ∧ 0 ≤ (compute_scores hav now offer p).geo
  ∧ (compute_scores hav now offer p).geo ≤ 1
  ∧ 0 ≤ (compute_scores hav now offer p).time
  ∧ (compute_scores hav now offer p).time ≤ 1
  ∧ 0 ≤ (compute_scores hav now offer p).combined
  ∧ (compute_scores hav now offer p).combined ≤ 1 := by
  have hs0 := calculate_semantic_score_nonneg offer p.query
  have hs1 := calculate_semantic_score_le_one offer p.query
  have hg0 := calculate_geo_score_nonneg hav offer p.lat p.lng p.radius_m
  have hg1 := calculate_geo_score_le_one hav offer p.lat p.lng p.radius_m
  have ht0 := calculate_time_score_nonneg offer now
  have ht1 := calculate_time_score_le_one offer now
  simp only [compute_scores]
  refine ⟨by trivial, hs0, hs1, hg0, hg1, ht0, ht1, by linarith, by linarith⟩

/-- Witness for C1 at a concrete input: the default request (radius 50000)
scoring a neutral offer. -/
theorem combined_score_formula_and_bounds_witness :
    0 < pageParams1.radius_m ∧
    ((compute_scores hav0 0 (nOffer "w") pageParams1).combined =
        (compute_scores hav0 0 (nOffer "w") pageParams1).semantic * 0.5
      + (compute_scores hav0 0 (nOffer "w") pageParams1).geo * 0.3
      + (compute_scores hav0 0 (nOffer "w") pageParams1).time * 0.2
  ∧ 0 ≤ (compute_scores hav0 0 (nOffer "w") pageParams1).semantic
  ∧ (compute_scores hav0 0 (nOffer "w") pageParams1).semantic ≤ 1
  ∧ 0 ≤ (compute_scores hav0 0 (nOffer "w") pageParams1).geo
  ∧ (compute_scores hav0 0 (nOffer "w") pageParams1).geo ≤ 1
  ∧ 0 ≤ (compute_scores hav0 0 (nOffer "w") pageParams1).time
  ∧ (compute_scores hav0 0 (nOffer "w") pageParams1).time ≤ 1
  ∧ 0 ≤ (compute_scores hav0 0 (nOffer "w") pageParams1).combined
  ∧ (compute_scores hav0 0 (nOffer "w") pageParams1).combined ≤ 1) :=
  ⟨by norm_num [pageParams1],
   combined_score_formula_and_bounds hav0 0 (nOffer "w") pageParams1
     (by norm_num [pageParams1])⟩

/-- C6: the time score is 0.5 when `expires_at` is absent or fails to parse,
0 when the expiry is strictly in the past, and otherwise bucketed by the
floor number of days until expiry: 1.0 up to 7 days, 0.8 up to 30, 0.6 up to
90, 0.4 beyond; the embedding is total, as the Python body never raises. -/
theorem time_score_buckets (offer : OfferPayload) (now : Int) :
    (offer.expires_at = none → calculate_time_score offer now = 0.5)
  ∧ (offer.expires_at = some none → calculate_time_score offer now = 0.5)
  ∧ (∀ ts : Int, offer.expires_at = some (some ts) →
      ((ts < now → calculate_time_score offer now = 0)
    ∧ (now ≤ ts →
        (((ts - now).fdiv 86400 ≤ 7 → calculate_time_score offer now = 1)
      ∧ (7 < (ts - now).fdiv 86400 → (ts - now).fdiv 86400 ≤ 30 →
            calculate_time_score offer now = 0.8)
      ∧ (30 < (ts - now).fdiv 86400 → (ts - now).fdiv 86400 ≤ 90 →
            calculate_time_score offer now = 0.6)
      ∧ (90 < (ts - now).fdiv 86400 → calculate_time_score offer now = 0.4))))) := by
  refine ⟨fun h => by simp [calculate_time_score, h], fun h => by simp [calculate_time_score, h], ?_⟩
  intro ts h
  simp only [calculate_time_score, h]
  constructor
  · intro hlt
    have hneg : ts - now < 0 := by omega
    have hdays : (ts - now).fdiv 86400 < 0 := by
      rw [Int.fdiv_eq_ediv _ (by norm_num)]
      exact Int.ediv_neg' hneg (by norm_num)
    split_ifs <;> linarith
  · intro hle
    have h0 : 0 ≤ (ts - now).fdiv 86400 := Int.fdiv_nonneg (by omega) (by norm_num)
    refine ⟨fun h1 => ?_, fun h1 h2 => ?_, fun h1 h2 => ?_, fun h1 => ?_⟩ <;>
      split_ifs <;> linarith

/-- Witness for C6 at concrete inputs: expiry in 3 days scores 1, in 200
days 0.4, one second in the past 0, and absent or unparseable expiry 0.5. -/
theorem time_score_buckets_witness :
    calculate_time_score { expires_at := some (some 259200) } 0 = 1
  ∧ calculate_time_score { expires_at := some (some 17280000) } 0 = 0.4
  ∧ calculate_time_score { expires_at := some (some (-1)) } 0 = 0
  ∧ calculate_time_score { expires_at := none } 0 = 0.5
  ∧ calculate_time_score { expires_at := some none } 0 = 0.5 :=
  ⟨(((time_score_buckets { expires_at := some (some 259200) } 0).2.2 259200 rfl).2
      (by decide)).1 (by decide),
   (((time_score_buckets { expires_at := some (some 17280000) } 0).2.2 17280000 rfl).2
      (by decide)).2.2.2 (by decide),
   ((time_score_buckets { expires_at := some (some (-1)) } 0).2.2 (-1) rfl).1 (by decide),
   (time_score_buckets { expires_at := none } 0).1 rfl,
   (time_score_buckets { expires_at := some none } 0).2.1 rfl⟩

/-- C10: the geo score treats the coordinate 0.0 as absent — a query with
`lat` or `lng` equal to 0.0 gets the neutral 0.5 regardless of the offer,
and an offer whose stored coordinate is 0.0 gets 0.3 when the query location
is truthy, so no distance is computed for such points. -/
theorem geo_score_zero_coordinate_as_missing (hav : ℚ → ℚ → ℚ → ℚ → ℚ)
    (offer : OfferPayload) (lat lng : Option ℚ) (r : ℚ) :
    ((lat = some 0 ∨ lng = some 0) → calculate_geo_score hav offer lat lng r = 0.5)
  ∧ (pyTruthy lat = true → pyTruthy lng = true →
      (offer.location_lat = some 0 ∨ offer.location_lng = some 0) →
      calculate_geo_score hav offer lat lng r = 0.3) := by
  constructor
  · rintro (h | h) <;> simp [calculate_geo_score, h, pyTruthy]
  · intro h1 h2 h3
    have hz : pyTruthy (some (0 : ℚ)) = false := by simp [pyTruthy]
    rcases h3 with h | h <;> simp [calculate_geo_score, h1, h2, h, hz]

/-- Witness for C10 at concrete inputs: a query latitude of exactly 0.0
yields 0.5, and an offer latitude of exactly 0.0 under a truthy query
location yields 0.3. -/
theorem geo_score_zero_coordinate_as_missing_witness :
    calculate_geo_score hav0 (nOffer "w") (some 0) (some 1) 1000 = 0.5
  ∧ calculate_geo_score hav0 { location_lat := some 0, location_lng := some 1 }
      (some 43) (some 1) 1000 = 0.3 :=
  ⟨(geo_score_zero_coordinate_as_missing hav0 (nOffer "w") (some 0) (some 1) 1000).1
      (Or.inl rfl),
   (geo_score_zero_coordinate_as_missing hav0
      { location_lat := some 0, location_lng := some 1 } (some 43) (some 1) 1000).2
      (by norm_num [pyTruthy]) (by norm_num [pyTruthy]) (Or.inl rfl)⟩

/-- Inserting into a list grows its length by one. -/
lemma insertDesc_length (key : OfferPayload × Scores → ℚ) (x : OfferPayload × Scores)
    (l : List (OfferPayload × Scores)) : (insertDesc key x l).length = l.length + 1 := by
  induction l with
  | nil => rfl
  | cons y ys ih =>
      simp only [insertDesc]
      split_ifs <;> simp [ih]

/-- The stable sort preserves length. -/
lemma sortDescBy_length (key : OfferPayload × Scores → ℚ)
    (l : List (OfferPayload × Scores)) : (sortDescBy key l).length = l.length := by
  induction l with
  | nil => rfl
  | cons y ys ih => simp [sortDescBy, insertDesc_length, ih]

/-- Ranking never drops a candidate: the ranked list has the same length as
the candidate pool. -/
lemma apply_hybrid_ranking_length (hav : ℚ → ℚ → ℚ → ℚ → ℚ) (now : Int)
    (offers : List OfferPayload) (p : SearchParams) :
    (apply_hybrid_ranking hav now offers p).length = offers.length := by
  simp [apply_hybrid_ranking, sortDescBy_length]

/-- Within the radius the clamp is the identity: the score is the linear
ramp from 1.0 at distance 0 to 0.8 at the radius. -/
lemma geo_distance_score_within (d r : ℚ) (hr : 0 < r) (hd0 : 0 ≤ d) (hdr : d ≤ r) :
    geo_distance_score d r = 1 - d / r * 0.2 := by
  simp only [geo_distance_score]
  rw [if_pos hdr]
  have h1 : d / r ≤ 1 := (div_le_one hr).mpr hdr
  have h0 : 0 ≤ d / r := div_nonneg hd0 hr.le
  rw [min_eq_left (by linarith), max_eq_right (by linarith)]
  norm_num

/-- Between the radius and twice the radius the score is the linear ramp
from 0.8 down to 0. -/
lemma geo_distance_score_outside (d r : ℚ) (hr : 0 < r) (hrd : r < d) (hd2 : d ≤ 2 * r) :
    geo_distance_score d r = 0.8 - (d - r) / r * 0.8 := by
  simp only [geo_distance_score]
  rw [if_neg (not_le.mpr hrd)]
  have h0 : 0 ≤ (d - r) / r := div_nonneg (by linarith) hr.le
  have h1 : (d - r) / r ≤ 1 := (div_le_one hr).mpr (by linarith)
  have e1 : max 0.0 (0.8 - (d - r) / r * 0.8) = 0.8 - (d - r) / r * 0.8 :=
    max_eq_right (by linarith)
  rw [e1, min_eq_left (by linarith), max_eq_right (by linarith)]

/-- Beyond twice the radius the score is clamped to 0. -/
lemma geo_distance_score_far (d r : ℚ) (hr : 0 < r) (hd2 : 2 * r ≤ d) :
    geo_distance_score d r = 0 := by
  simp only [geo_distance_score]
  rw [if_neg (not_le.mpr (by linarith))]
  have h1 : 1 ≤ (d - r) / r := (le_div_iff₀ hr).mpr (by linarith)
  have e1 : max 0.0 (0.8 - (d - r) / r * 0.8) = 0.0 := max_eq_left (by linarith)
  rw [e1, min_eq_left (by norm_num), max_eq_right (by norm_num)]
  norm_num

/-- The distance score is monotone non-increasing in the distance. -/
lemma geo_distance_score_mono (r d1 d2 : ℚ) (hr : 0 < r) (hd1 : 0 ≤ d1) (h12 : d1 ≤ d2) :
    geo_distance_score d2 r ≤ geo_distance_score d1 r := by
  simp only [geo_distance_score]
  refine max_le_max le_rfl (min_le_min ?_ le_rfl)
  split_ifs with h2 h1 h1
  · have hdd : d1 / r ≤ d2 / r := by gcongr
    linarith
  · exact absurd (h12.trans h2) h1
  · have hx : 0 ≤ (d2 - r) / r := div_nonneg (by linarith) hr.le
    have hy : d1 / r ≤ 1 := (div_le_one hr).mpr h1
    have h5 : max 0.0 (0.8 - (d2 - r) / r * 0.8) ≤ 0.8 :=
      max_le (by norm_num) (by linarith)
    linarith
  · have h3 : (d1 - r) / r ≤ (d2 - r) / r := by gcongr
    exact max_le_max le_rfl (by linarith)

/-- C5: the geo score is 0.5 when the query location is missing (falsy), 0.3
when the query has a location but the offer's is missing (the offer still
being ranked, not dropped), and otherwise is the clamped piecewise-linear
function of the haversine distance in meters: the ramp `1 → 0.8` within the
radius, the ramp `0.8 → 0` out to twice the radius, 0 beyond, monotone
non-increasing in distance and never above 1. -/
theorem geo_score_branches_and_monotone (hav : ℚ → ℚ → ℚ → ℚ → ℚ)
    (offer : OfferPayload) (lat lng : Option ℚ) (r : ℚ) :
    ((pyTruthy lat = false ∨ pyTruthy lng = false) →
        calculate_geo_score hav offer lat lng r = 0.5)
  ∧ (pyTruthy lat = true → pyTruthy lng = true →
      (pyTruthy offer.location_lat = false ∨ pyTruthy offer.location_lng = false) →
      calculate_geo_score hav offer lat lng r = 0.3)
  ∧ (pyTruthy lat = true → pyTruthy lng = true →
      pyTruthy offer.location_lat = true → pyTruthy offer.location_lng = true →
      calculate_geo_score hav offer lat lng r =
        geo_distance_score
          (hav (lat.getD 0) (lng.getD 0)
            (offer.location_lat.getD 0) (offer.location_lng.getD 0) * 1000) r)
  ∧ (∀ d : ℚ, 0 < r → 0 ≤ d →
      ((d ≤ r → geo_distance_score d r = 1 - d / r * 0.2)
    ∧ (r < d → d ≤ 2 * r → geo_distance_score d r = 0.8 - (d - r) / r * 0.8)
    ∧ (2 * r ≤ d → geo_distance_score d r = 0)
    ∧ geo_distance_score d r ≤ 1))
  ∧ (∀ d1 d2 : ℚ, 0 < r → 0 ≤ d1 → d1 ≤ d2 →
      geo_distance_score d2 r ≤ geo_distance_score d1 r)
  ∧ (∀ (now : Int) (offers : List OfferPayload) (p : SearchParams),
      (apply_hybrid_ranking hav now offers p).length = offers.length) := by
  refine ⟨?_, ?_, ?_, ?_, ?_, ?_⟩
  · rintro (h | h) <;> simp [calculate_geo_score, h]
  · intro h1 h2 h3
    rcases h3 with h | h <;> simp [calculate_geo_score, h1, h2, h]
  · intro h1 h2 h3 h4
    simp [calculate_geo_score, h1, h2, h3, h4]
  · intro d hr hd
    exact ⟨fun hdr => geo_distance_score_within d r hr hd hdr,
           fun hrd hd2 => geo_distance_score_outside d r hr hrd hd2,
           fun h2 => geo_distance_score_far d r hr h2,
           geo_distance_score_le_one d r⟩
  · exact fun d1 d2 hr h1 h12 => geo_distance_score_mono r d1 d2 hr h1 h12
  · exact fun now offers p => apply_hybrid_ranking_length hav now offers p

/-- Witness for C5 at concrete inputs: missing query location gives 0.5,
missing offer location gives 0.3, and with radius 1000 the distances 500,
1500 and 2000 land on the three pieces, monotonically. -/
theorem geo_score_branches_and_monotone_witness :
    calculate_geo_score hav0 (nOffer "w") none (some 1) 1000 = 0.5
  ∧ calculate_geo_score hav0 (nOffer "w") (some 43) (some 1) 1000 = 0.3
  ∧ geo_distance_score 500 1000 = 1 - 500 / 1000 * 0.2
  ∧ geo_distance_score 1500 1000 = 0.8 - (1500 - 1000) / 1000 * 0.8
  ∧ geo_distance_score 2000 1000 = 0
  ∧ geo_distance_score 1500 1000 ≤ geo_distance_score 500 1000 :=
  ⟨(geo_score_branches_and_monotone hav0 (nOffer "w") none (some 1) 1000).1 (Or.inl rfl),
   (geo_score_branches_and_monotone hav0 (nOffer "w") (some 43) (some 1) 1000).2.1
     (by norm_num [pyTruthy]) (by norm_num [pyTruthy]) (Or.inl rfl),
   ((geo_score_branches_and_monotone hav0 (nOffer "w") none none 1000).2.2.2.1 500
     (by norm_num) (by norm_num)).1 (by norm_num),
   (((geo_score_branches_and_monotone hav0 (nOffer "w") none none 1000).2.2.2.1 1500
     (by norm_num) (by norm_num)).2.1 (by norm_num) (by norm_num)),
   (((geo_score_branches_and_monotone hav0 (nOffer "w") none none 1000).2.2.2.1 2000
     (by norm_num) (by norm_num)).2.2.1 (by norm_num)),
   ((geo_score_branches_and_monotone hav0 (nOffer "w") none none 1000).2.2.2.2.1 500 1500
     (by norm_num) (by norm_num) (by norm_num))⟩

/-- C4: the source's term-overlap semantic score coincides with the formula
as the specification words it, and an empty query scores exactly 0.5. -/
theorem semantic_score_matches_spec (o : OfferPayload) (q : String) :
    calculate_semantic_score o q = semanticScoreSpec o q ∧
    calculate_semantic_score o "" = 0.5 := by
  constructor
  · unfold calculate_semantic_score semanticScoreSpec
    by_cases hq : q = ""
    · simp [hq]
    · by_cases hw : pySplit q.toLower = []
      · simp only [hq, if_false, ite_false]
        norm_num [hw]
      · simp only [hq, if_false]
        norm_num [hw]
        ring_nf
  · simp [calculate_semantic_score]

/-- Counterexample to C8 as stated: the gor-api `calculate_similarity`
raises `ValueError` (here `.error`) on vectors of mismatched dimensions, so
the operation does not hold for every pair of input vectors. -/
theorem similarity_mismatched_dims_raises :
    EmbeddingService.calculate_similarity (fun q => q) [(1 : ℚ)] [1, 2] =
      .error "Embeddings must have same dimension" := by
  simp [EmbeddingService.calculate_similarity]

/-- C8 (amended): for equal-dimension inputs the gor-api
`calculate_similarity` never raises, returns 0 whenever either vector has
zero magnitude (zero sum of squares), and otherwise divides by a provably
nonzero magnitude product; the acp-sdk version is total for all inputs,
returning 0 on dimension mismatch and on zero magnitude.  `sqrtf` stands
for float `** 0.5`, assumed only to vanish exactly on 0. -/
theorem similarity_zero_magnitude_safe (sqrtf : ℚ → ℚ)
    (hsq : ∀ q : ℚ, 0 ≤ q → (sqrtf q = 0 ↔ q = 0)) (e1 e2 : List ℚ) :
    (e1.length = e2.length →
      ((∃ v : ℚ, EmbeddingService.calculate_similarity sqrtf e1 e2 = .ok v)
    ∧ (((e1.map (fun a => a * a)).sum = 0 ∨ (e2.map (fun b => b * b)).sum = 0) →
        EmbeddingService.calculate_similarity sqrtf e1 e2 = .ok 0)
    ∧ ((e1.map (fun a => a * a)).sum ≠ 0 → (e2.map (fun b => b * b)).sum ≠ 0 →
        sqrtf ((e1.map (fun a => a * a)).sum) * sqrtf ((e2.map (fun b => b * b)).sum) ≠ 0)))
  ∧ (e1.length ≠ e2.length → VectorSearchService.calculate_similarity sqrtf e1 e2 = 0)
  ∧ (((e1.map (fun a => a * a)).sum = 0 ∨ (e2.map (fun b => b * b)).sum = 0) →
      VectorSearchService.calculate_similarity sqrtf e1 e2 = 0) := by
  have hm1 : ((e1.map (fun a => a * a)).sum = 0 ∨ (e2.map (fun b => b * b)).sum = 0) →
      sqrtf ((e1.map (fun a => a * a)).sum) = 0 ∨ sqrtf ((e2.map (fun b => b * b)).sum) = 0 := by
    rintro (h | h)
    · exact Or.inl ((hsq _ (sumsq_nonneg e1)).mpr h)
    · exact Or.inr ((hsq _ (sumsq_nonneg e2)).mpr h)
  refine ⟨fun hlen => ⟨?_, ?_, ?_⟩, fun hlen => ?_, ?_⟩
  · simp only [EmbeddingService.calculate_similarity]
    rw [if_neg (by simp [hlen])]
    split_ifs <;> exact ⟨_, rfl⟩
  · intro h
    simp only [EmbeddingService.calculate_similarity]
    rw [if_neg (by simp [hlen]), if_pos (hm1 h)]
  · intro h1 h2
    exact mul_ne_zero (fun c => h1 ((hsq _ (sumsq_nonneg e1)).mp c))
      (fun c => h2 ((hsq _ (sumsq_nonneg e2)).mp c))
  · simp [VectorSearchService.calculate_similarity, hlen]
  · intro h
    by_cases hlen : e1.length = e2.length
    · simp only [VectorSearchService.calculate_similarity]
      rw [if_neg (by simp [hlen]), if_pos (hm1 h)]
    · simp [VectorSearchService.calculate_similarity, hlen]

/-- Witness for C8 (amended) at concrete inputs, with the identity as a
square root satisfying the vanishing hypothesis: equal-dimension zero
vectors give `.ok 0` in the gor-api version and `0` in the acp-sdk one. -/
theorem similarity_zero_magnitude_safe_witness :
    (∀ q : ℚ, 0 ≤ q → ((fun q : ℚ => q) q = 0 ↔ q = 0))
  ∧ EmbeddingService.calculate_similarity (fun q : ℚ => q) [(0 : ℚ)] [0] = .ok 0
  ∧ VectorSearchService.calculate_similarity (fun q : ℚ => q) [(0 : ℚ)] [0, 0] = 0 :=
  ⟨fun _ _ => Iff.rfl,
   (((similarity_zero_magnitude_safe (fun q : ℚ => q) (fun _ _ => Iff.rfl) [0] [0]).1
      rfl).2.1 (Or.inl (by norm_num))),
   ((similarity_zero_magnitude_safe (fun q : ℚ => q) (fun _ _ => Iff.rfl) [0] [0, 0]).2.2
      (Or.inl (by norm_num)))⟩

/-- C3, evaluated at the failing input: six equally-scored candidates in
store order, paged with `offset=0,limit=2` then `offset=2,limit=2`.  The
code forwards `offset` and `limit*2` to the store-level retrieval and then
slices `[offset : offset+limit]` again after ranking, so the second page
returns the fifth and sixth candidates (a gap over the expected third and
fourth), and `total` is the 2·limit retrieval pool (4), not the candidate
pool size (6). -/
theorem pagination_double_offset_eval :
    (search_pipeline hav0 0 store6 pageParams1).offers = [nOffer "o0", nOffer "o1"]
  ∧ (search_pipeline hav0 0 store6 pageParams1).total = 4
  ∧ store6.length = 6
  ∧ (search_pipeline hav0 0 store6 pageParams2).offers = [nOffer "o4", nOffer "o5"]
  ∧ (search_pipeline hav0 0 store6 pageParams2).total = 4
  ∧ [nOffer "o4", nOffer "o5"] ≠ [nOffer "o2", nOffer "o3"] := by
  have h1 : (search_pipeline hav0 0 store6 pageParams1).offers = [nOffer "o0", nOffer "o1"]
      ∧ (search_pipeline hav0 0 store6 pageParams1).total = 4 := by
    norm_num [search_pipeline, search_offers, gor_base_retrieval, apply_hybrid_ranking,
      compute_scores, calculate_semantic_score, calculate_geo_score, calculate_time_score,
      pyTruthy, sortDescBy, insertDesc, store6, nOffer, pageParams1, hav0]
    simp
  have h2 : (search_pipeline hav0 0 store6 pageParams2).offers = [nOffer "o4", nOffer "o5"]
      ∧ (search_pipeline hav0 0 store6 pageParams2).total = 4 := by
    norm_num [search_pipeline, search_offers, gor_base_retrieval, apply_hybrid_ranking,
      compute_scores, calculate_semantic_score, calculate_geo_score, calculate_time_score,
      pyTruthy, sortDescBy, insertDesc, store6, nOffer, pageParams2, hav0]
    simp
  refine ⟨h1.1, h1.2, by simp [store6], h2.1, h2.2, by simp [nOffer]⟩

end AcpDemo
